import Mathlib

/-!
Shallow embedding of the parts of the mailboat source that the claims
C1..C10 are about: scope matching (`usrsys/tk.py`), the transfer agent's
message handling and delivery worker (`mta/__init__.py`), the record
store's query matching (`utils/storage.py`), the dataclass adapter
(`utils/storage.py`), the mail store reference counting (`mailstore.py`)
and token creation (`usrsys/tk.py`, `usrsys/storage.py`).
-/

namespace Mailboat

/-! ## Scope (src/mailboat/usrsys/tk.py) -/

/-- Embedding of Python `str.split(".")` restricted to the single-character
separator used by `Scope.match`: splits a character list at every dot,
keeping empty pieces; the empty input gives one empty piece. -/
def splitChars : List Char → List (List Char)
  | [] => [[]]
  | c :: rest =>
    let r := splitChars rest
    if c = '.' then [] :: r
    else
      match r with
      | p :: ps => (c :: p) :: ps
      | [] => [[c]]

/-- The dot-components of a scope string, as `defined_scope.split(".")`
computes them in `Scope.match`. -/
def dotComponents (s : String) : List String :=
  (splitChars s.data).map (fun l => String.mk l)

/-- Embedding of `Scope.match` (tk.py lines 43-57): compare the zipped
component lists pairwise, then return `len(defined) >= len(requesting)`. -/
def scope_match (defined_scope requesting_scope : String) : Bool :=
  let defined := dotComponents defined_scope
  let requesting := dotComponents requesting_scope
  ((defined.zip requesting).all (fun p => p.1 == p.2))
    && (requesting.length ≤ defined.length)

/-- The matching rule as the spec words it: `defined` covers `requesting`
iff the dot-components of `defined` are a prefix of, and no longer than,
those of `requesting`. -/
def spec_scope_match (defined_scope requesting_scope : String) : Bool :=
  List.isPrefixOf (dotComponents defined_scope) (dotComponents requesting_scope)

/-- Embedding of `Scope.__contains__` (tk.py lines 59-65): `val` is
contained iff some element of the scope set matches it via `scope_match`.
The Python set is modelled as a list. -/
def scope_contains (scope : List String) (val : String) : Bool :=
  scope.any (fun s => scope_match s val)

/-- Embedding of `Scope.is_superset_of` (tk.py lines 67-73): returns
false as soon as any pair `(s ∈ scope, s2 ∈ scope_set)` fails
`scope_match s s2`, i.e. it requires every element of `scope` to match
every element of `scope_set`. -/
def scope_is_superset_of (scope : List String) (scope_set : List String) : Bool :=
  scope.all (fun s => scope_set.all (fun s2 => scope_match s s2))

/-- The superset test as the spec words it: every scope in the query is
covered by some scope in the set (dot-prefix rule). -/
def spec_scope_is_superset_of (scope : List String) (scope_set : List String) : Bool :=
  scope_set.all (fun s2 => scope.any (fun s => spec_scope_match s s2))

/-! ## Transfer agent: handle_message (src/mailboat/mta/__init__.py 203-250) -/

/-- A parsed address as flanker's `address.parse_list` yields it: its
address type (`"email"` for mailbox addresses), its hostname part and the
full address string. -/
structure Addr where
  addr_type : String
  hostname : String
  address : String
deriving DecidableEq, Repr

/-- The header data of a message as `TransferAgent.handle_message` reads
it: the optional `Message-Id` and `X-Peer` headers, and the address lists
parsed from the `To`, `Cc` and `Bcc` headers (an absent header parses to
the empty list). -/
structure InMessage where
  messageId : Option String
  xPeer : Option String
  mail_to : List Addr
  mail_cc : List Addr
  mail_bcc : List Addr
deriving DecidableEq, Repr

/-- Python `str.startswith` on the underlying character lists. -/
def str_startswith (s pre : String) : Bool :=
  List.isPrefixOf pre.data s.data

/-- The relay condition of `handle_message` lines 230-238: by Python
precedence, `(isinstance(X-Peer, str) and X-Peer.startswith(...)) or
internal`. -/
def relay_allowed (msg : InMessage) (internal : Bool) : Bool :=
  (match msg.xPeer with
    | some p =>
      str_startswith p ("127.0.0.1") || str_startswith p ("::1")
        || str_startswith p ("localhost")
    | none => false)
  || internal

/-- Embedding of `TransferAgent.handle_message`: drop the message when it
has no `Message-Id`; otherwise walk the To, Cc, Bcc address lists in
order and keep each address of type email whose hostname is in
`mydomains`, or (failing that) for which the relay condition holds.  The
result is the list of envelope recipients, one enqueued envelope per
element (each envelope is a copy of the message with `Delivered-To` set
to that address). -/
def handle_message (mydomains : List String) (msg : InMessage) (internal : Bool) :
    List Addr :=
  match msg.messageId with
  | none => []
  | some _ =>
    (msg.mail_to ++ msg.mail_cc ++ msg.mail_bcc).filter (fun a =>
      a.addr_type == ("email")
        && (mydomains.contains a.hostname || relay_allowed msg internal))

/-! ## Transfer agent: delivery worker (src/mailboat/mta/__init__.py 272-294) -/

/-- An envelope as the delivery worker sees it after `queue.get()`: the
parsed `Delivered-To` address if that header is present, and the `Bcc`
header value if present. -/
structure QueuedMessage where
  deliveredTo : Option Addr
  bcc : Option String
deriving DecidableEq, Repr

/-- The observable effects of one loop iteration of
`TransferAgent._cothread_deliveryman` on a dequeued envelope. -/
inductive DeliveryAction where
  | localDelivery (m : QueuedMessage)
  | remoteDeliver (m : QueuedMessage)
  | removeEntry (idx : Nat)
deriving DecidableEq, Repr

/-- Embedding of one iteration of `_cothread_deliveryman` on the envelope
`(msg, idx)` returned by `queue.get()`: skip when there is no
`Delivered-To`; else rewrite the `Bcc` header to the `Delivered-To` value
when a `Bcc` is present, then dispatch to the local delivery handler when
the delivered-to hostname is in `mydomains` and to `remote_deliver`
otherwise.  The returned list holds every effect the iteration performs
on the queue and the handlers. -/
def cothread_deliveryman_step (mydomains : List String) (msg : QueuedMessage)
    (_idx : Nat) : List DeliveryAction :=
  match msg.deliveredTo with
  | none => []
  | some dt =>
    let m' : QueuedMessage :=
      match msg.bcc with
      | some _ => { msg with bcc := some dt.address }
      | none => msg
    if mydomains.contains dt.hostname then [DeliveryAction.localDelivery m']
    else [DeliveryAction.remoteDeliver m']

/-! ## Email queues (src/mailboat/mta/__init__.py 27-88) -/

/-- The state of `MemoryEmailQueue`: the `container` dict (id → message,
modelled as an association list with unique keys), and the two counters.
Messages are abstracted to their raw text. -/
structure MemQueue where
  container : List (Nat × String)
  next_read_id : Nat
  next_set_id : Nat
deriving DecidableEq, Repr

/-- The empty `MemoryEmailQueue` as `__init__` builds it. -/
def memEmpty : MemQueue := { container := [], next_read_id := 0, next_set_id := 0 }

/-- Embedding of `MemoryEmailQueue.put`: bind the next id to the message
and advance `next_set_id`. -/
def mem_put (s : MemQueue) (m : String) : MemQueue :=
  { container := s.container ++ [(s.next_set_id, m)]
    next_read_id := s.next_read_id
    next_set_id := s.next_set_id + 1 }

/-- Recursion core of `MemoryEmailQueue.get`: the Python loop awaits while
`next_read_id >= next_set_id` (modelled as `none` — the call blocks), then
reads and advances the pointer, recursing past ids whose entry was
removed.  The fuel is the number of ids still ahead of the read pointer,
which bounds the recursion. -/
def mem_get_aux : Nat → MemQueue → Option (String × Nat × MemQueue)
  | 0, _ => none
  | fuel + 1, s =>
    if s.next_set_id ≤ s.next_read_id then none
    else
      let s' : MemQueue := { s with next_read_id := s.next_read_id + 1 }
      match s.container.lookup s.next_read_id with
      | some m => some (m, s.next_read_id, s')
      | none => mem_get_aux fuel s'

/-- Embedding of `MemoryEmailQueue.get` (blocking modelled as `none`). -/
def mem_get (s : MemQueue) : Option (String × Nat × MemQueue) :=
  mem_get_aux (s.next_set_id - s.next_read_id) s

/-- Embedding of `MemoryEmailQueue.remove`: `assert id in self.container`
then `del self.container[id]`; a failing assert raises `AssertionError`. -/
def mem_remove (s : MemQueue) (id : Nat) : Except String MemQueue :=
  if (s.container.lookup id).isSome then
    Except.ok { s with container := s.container.filter (fun kv => kv.1 != id) }
  else Except.error ("AssertionError")

/-- The state of `UnQLiteEmailMessageQueue`: the backing collection
(documents `{message: raw}` keyed by the engine-assigned `__id`), the
in-memory id list, and the next id the engine will assign. -/
structure UnqQueue where
  coll : List (Nat × String)
  ids : List Nat
  next_id : Nat
deriving DecidableEq, Repr

/-- Embedding of `UnQLiteEmailMessageQueue.put`: store the document and
append the assigned id. -/
def unq_put (s : UnqQueue) (m : String) : UnqQueue :=
  { coll := s.coll ++ [(s.next_id, m)]
    ids := s.ids ++ [s.next_id]
    next_id := s.next_id + 1 }

/-- Embedding of `UnQLiteEmailMessageQueue.get`: pop the first pending id
and fetch its document (blocking while `_ids` is empty is modelled as
`none`, as is a fetch of a deleted document). -/
def unq_get (s : UnqQueue) : Option (String × Nat × UnqQueue) :=
  match s.ids with
  | [] => none
  | i :: rest =>
    match s.coll.lookup i with
    | some m => some (m, i, { s with ids := rest })
    | none => none

/-- Embedding of `UnQLiteEmailMessageQueue.remove`: `Collection.delete` of
the given id; deleting an absent id is a no-op in unqlite (it reports
failure without raising). -/
def unq_remove (s : UnqQueue) (idx : Nat) : UnqQueue :=
  { s with coll := s.coll.filter (fun kv => kv.1 != idx) }

/-! ## Record store (src/mailboat/utils/storage.py) -/

/-- The universe of values the stored dictionaries hold for the record
types of this system: strings, integers, booleans, `None`, lists of
strings, string-keyed string maps and sets of strings (sets modelled as
lists). -/
inductive Value where
  | vstr (s : String)
  | vint (n : Int)
  | vbool (b : Bool)
  | vnone
  | vstrlist (l : List String)
  | vstrmap (l : List (String × String))
  | vset (l : List String)
deriving DecidableEq, Repr

/-- A stored dictionary: string keys to values, insertion-ordered with
unique keys, as a Python `dict`. -/
def Dict := List (String × Value)
deriving DecidableEq, Repr

/-- Key lookup in a dictionary. -/
def dictGet (d : Dict) (k : String) : Option Value :=
  (List.find? (fun kv => kv.1 == k) d).map (fun kv => kv.2)

/-- Embedding of `UnQLiteStorage.doc_match` (storage.py lines 213-220):
iterate the query's keys in order and return `True` as soon as one key is
present in the document with an equal value; return `False` only when no
key matches. -/
def doc_match (doc : Dict) (query : Dict) : Bool :=
  query.any (fun kv =>
    match dictGet doc kv.1 with
    | some v => v == kv.2
    | none => false)

/-- The matching rule as the spec words it: the document matches iff for
every key of the query the document has that key with an equal value. -/
def spec_doc_match (doc : Dict) (query : Dict) : Bool :=
  query.all (fun kv =>
    match dictGet doc kv.1 with
    | some v => v == kv.2
    | none => false)

/-- Embedding of `UnQLiteStorage.find` (storage.py lines 222-241): stream
every document of the collection that `doc_match` accepts, in collection
order. -/
def storage_find (coll : List Dict) (query : Dict) : List Dict :=
  coll.filter (fun d => doc_match d query)

/-- Embedding of `UnQLiteStorage.find_one`: the first document `find`
yields, if any. -/
def storage_find_one (coll : List Dict) (query : Dict) : Option Dict :=
  (storage_find coll query).head?

/-! ## Record types (src/mailboat/usrsys/usr.py, tk.py, mailstore.py) -/

/-- `usr.UserRecord`. -/
structure UserRecord where
  nickname : String
  username : String
  password_b64hash : String
  profileid : String
  mailboxes : List (String × String)
  email_address : Option String
deriving DecidableEq, Repr

/-- `usr.ProfileRecord` (`physical_sex` is a string literal type in the
source). -/
structure ProfileRecord where
  identity : String
  member_no : Option String
  name : Option String
  age : Option Int
  physical_sex : Option String
deriving DecidableEq, Repr

/-- `usr.MailBoxRecord` (the Python `Set[str]` fields are modelled as
lists). -/
structure MailBoxRecord where
  identity : String
  readonly : Bool
  permanent_flags : List String
  session_flags : List String
deriving DecidableEq, Repr

/-- `usr.MailRecord`. -/
structure MailRecord where
  mailbox_id : String
  message_id : String
deriving DecidableEq, Repr

/-- `mailstore.MailStoreRecord`. -/
structure MailStoreRecord where
  message_id : String
  raw_mail : String
  ref_count : Int
deriving DecidableEq, Repr

/-- `tk.TokenRecord`. -/
structure TokenRecord where
  token : String
  profileid : String
  appid : String
  apprev : String
  scope : List String
  expiration : Option Int
deriving DecidableEq, Repr

/-! ## DataclassCommonStorageAdapter (src/mailboat/utils/storage.py 136-154) -/

/-- `dict2record` first copies the dictionary and pops the engine-internal
`__id` key. -/
def stripId (d : Dict) : Dict :=
  d.filter (fun kv => kv.1 != ("__id"))

/-- Decode a string value (a mistyped value is a constructor `TypeError`,
modelled as `none`). -/
def value_as_str : Value → Option String
  | Value.vstr s => some s
  | _ => none

/-- Decode an optional-string field (`None` or a string). -/
def value_as_opt_str : Value → Option (Option String)
  | Value.vnone => some none
  | Value.vstr s => some (some s)
  | _ => none

/-- Decode an integer value. -/
def value_as_int : Value → Option Int
  | Value.vint n => some n
  | _ => none

/-- Decode an optional-integer field. -/
def value_as_opt_int : Value → Option (Option Int)
  | Value.vnone => some none
  | Value.vint n => some (some n)
  | _ => none

/-- Decode a boolean value. -/
def value_as_bool : Value → Option Bool
  | Value.vbool b => some b
  | _ => none

/-- Decode a list-of-strings value. -/
def value_as_strlist : Value → Option (List String)
  | Value.vstrlist l => some l
  | _ => none

/-- Decode a string-map value. -/
def value_as_strmap : Value → Option (List (String × String))
  | Value.vstrmap l => some l
  | _ => none

/-- Decode a set-of-strings value. -/
def value_as_set : Value → Option (List String)
  | Value.vset l => some l
  | _ => none

/-- The keyword-argument check of `datacls(**d)`: every key of the
dictionary must name a field, else the constructor raises `TypeError`. -/
def keysAmong (d : Dict) (fields : List String) : Bool :=
  d.all (fun kv => fields.contains kv.1)

/-- Encode an optional string the way `dataclasses.asdict` leaves it. -/
def encOptStr : Option String → Value
  | some s => Value.vstr s
  | none => Value.vnone

/-- Encode an optional integer the way `dataclasses.asdict` leaves it. -/
def encOptInt : Option Int → Value
  | some n => Value.vint n
  | none => Value.vnone

/-- `record2dict` for `UserRecord`: `dataclasses.asdict`, field order of
the class. -/
def UserRecord.record2dict (r : UserRecord) : Dict :=
  [(("nickname"), Value.vstr r.nickname),
   (("username"), Value.vstr r.username),
   (("password_b64hash"), Value.vstr r.password_b64hash),
   (("profileid"), Value.vstr r.profileid),
   (("mailboxes"), Value.vstrmap r.mailboxes),
   (("email_address"), encOptStr r.email_address)]

/-- `dict2record` for `UserRecord`: pop `__id`, then `UserRecord(**d)` —
unknown keys or a missing/mistyped field raise `TypeError` (`none`);
`email_address` defaults to `None` when absent. -/
def UserRecord.dict2record (d0 : Dict) : Option UserRecord := do
  let d := stripId d0
  if keysAmong d [("nickname"), ("username"), ("password_b64hash"), ("profileid"),
      ("mailboxes"), ("email_address")] then
    let nickname ← (dictGet d ("nickname")).bind value_as_str
    let username ← (dictGet d ("username")).bind value_as_str
    let password_b64hash ← (dictGet d ("password_b64hash")).bind value_as_str
    let profileid ← (dictGet d ("profileid")).bind value_as_str
    let mailboxes ← (dictGet d ("mailboxes")).bind value_as_strmap
    let email_address ←
      match dictGet d ("email_address") with
      | none => some none
      | some v => value_as_opt_str v
    pure ⟨nickname, username, password_b64hash, profileid, mailboxes, email_address⟩
  else none

/-- `record2dict` for `ProfileRecord`. -/
def ProfileRecord.record2dict (r : ProfileRecord) : Dict :=
  [(("identity"), Value.vstr r.identity),
   (("member_no"), encOptStr r.member_no),
   (("name"), encOptStr r.name),
   (("age"), encOptInt r.age),
   (("physical_sex"), encOptStr r.physical_sex)]

/-- `dict2record` for `ProfileRecord` (`member_no`, `name`, `age`,
`physical_sex` default to `None` when absent). -/
def ProfileRecord.dict2record (d0 : Dict) : Option ProfileRecord := do
  let d := stripId d0
  if keysAmong d [("identity"), ("member_no"), ("name"), ("age"), ("physical_sex")] then
    let identity ← (dictGet d ("identity")).bind value_as_str
    let member_no ←
      match dictGet d ("member_no") with
      | none => some none
      | some v => value_as_opt_str v
    let name ←
      match dictGet d ("name") with
      | none => some none
      | some v => value_as_opt_str v
    let age ←
      match dictGet d ("age") with
      | none => some none
      | some v => value_as_opt_int v
    let physical_sex ←
      match dictGet d ("physical_sex") with
      | none => some none
      | some v => value_as_opt_str v
    pure ⟨identity, member_no, name, age, physical_sex⟩
  else none

/-- `record2dict` for `MailBoxRecord`. -/
def MailBoxRecord.record2dict (r : MailBoxRecord) : Dict :=
  [(("identity"), Value.vstr r.identity),
   (("readonly"), Value.vbool r.readonly),
   (("permanent_flags"), Value.vset r.permanent_flags),
   (("session_flags"), Value.vset r.session_flags)]

/-- `dict2record` for `MailBoxRecord`. -/
def MailBoxRecord.dict2record (d0 : Dict) : Option MailBoxRecord := do
  let d := stripId d0
  if keysAmong d [("identity"), ("readonly"), ("permanent_flags"), ("session_flags")] then
    let identity ← (dictGet d ("identity")).bind value_as_str
    let readonly ← (dictGet d ("readonly")).bind value_as_bool
    let permanent_flags ← (dictGet d ("permanent_flags")).bind value_as_set
    let session_flags ← (dictGet d ("session_flags")).bind value_as_set
    pure ⟨identity, readonly, permanent_flags, session_flags⟩
  else none

/-- `record2dict` for `MailRecord`. -/
def MailRecord.record2dict (r : MailRecord) : Dict :=
  [(("mailbox_id"), Value.vstr r.mailbox_id),
   (("message_id"), Value.vstr r.message_id)]

/-- `dict2record` for `MailRecord`. -/
def MailRecord.dict2record (d0 : Dict) : Option MailRecord := do
  let d := stripId d0
  if keysAmong d [("mailbox_id"), ("message_id")] then
    let mailbox_id ← (dictGet d ("mailbox_id")).bind value_as_str
    let message_id ← (dictGet d ("message_id")).bind value_as_str
    pure ⟨mailbox_id, message_id⟩
  else none

/-- `record2dict` for `MailStoreRecord`. -/
def MailStoreRecord.record2dict (r : MailStoreRecord) : Dict :=
  [(("message_id"), Value.vstr r.message_id),
   (("raw_mail"), Value.vstr r.raw_mail),
   (("ref_count"), Value.vint r.ref_count)]

/-- `dict2record` for `MailStoreRecord`. -/
def MailStoreRecord.dict2record (d0 : Dict) : Option MailStoreRecord := do
  let d := stripId d0
  if keysAmong d [("message_id"), ("raw_mail"), ("ref_count")] then
    let message_id ← (dictGet d ("message_id")).bind value_as_str
    let raw_mail ← (dictGet d ("raw_mail")).bind value_as_str
    let ref_count ← (dictGet d ("ref_count")).bind value_as_int
    pure ⟨message_id, raw_mail, ref_count⟩
  else none

/-- `record2dict` for `TokenRecord`. -/
def TokenRecord.record2dict (r : TokenRecord) : Dict :=
  [(("token"), Value.vstr r.token),
   (("profileid"), Value.vstr r.profileid),
   (("appid"), Value.vstr r.appid),
   (("apprev"), Value.vstr r.apprev),
   (("scope"), Value.vstrlist r.scope),
   (("expiration"), encOptInt r.expiration)]

/-- `dict2record` for `TokenRecord` (`expiration` defaults to `None`
when absent). -/
def TokenRecord.dict2record (d0 : Dict) : Option TokenRecord := do
  let d := stripId d0
  if keysAmong d [("token"), ("profileid"), ("appid"), ("apprev"), ("scope"),
      ("expiration")] then
    let token ← (dictGet d ("token")).bind value_as_str
    let profileid ← (dictGet d ("profileid")).bind value_as_str
    let appid ← (dictGet d ("appid")).bind value_as_str
    let apprev ← (dictGet d ("apprev")).bind value_as_str
    let scope ← (dictGet d ("scope")).bind value_as_strlist
    let expiration ←
      match dictGet d ("expiration") with
      | none => some none
      | some v => value_as_opt_int v
    pure ⟨token, profileid, appid, apprev, scope, expiration⟩
  else none

/-! ## MailStore (src/mailboat/mailstore.py) -/

/-- The mail store collection, in insertion order. -/
abbrev MailStoreState := List MailStoreRecord

/-- `find_one({"message_id": mid})` over the mail store: the first stored
record with that message id. -/
def mailstore_find_one (s : MailStoreState) (mid : String) : Option MailStoreRecord :=
  List.find? (fun r => r.message_id == mid) s

/-- `update_one({"message_id": mid}, updated)`: replace the first record
matching the query in place. -/
def mailstore_update_one (s : MailStoreState) (mid : String)
    (updated : MailStoreRecord) : MailStoreState :=
  match s with
  | [] => []
  | r :: rest =>
    if r.message_id == mid then updated :: rest
    else r :: mailstore_update_one rest mid updated

/-- `remove_one({"message_id": mid})`: delete the first record matching
the query. -/
def mailstore_remove_one (s : MailStoreState) (mid : String) : MailStoreState :=
  match s with
  | [] => []
  | r :: rest =>
    if r.message_id == mid then rest
    else r :: mailstore_remove_one rest mid

/-- Embedding of `MailStore.store_mail` (mailstore.py lines 56-72): if a
record with the mail's message id exists, increment its `ref_count` and
persist the update; else store a fresh record with `ref_count = 1`.
Returns the new state and the returned record. -/
def store_mail (s : MailStoreState) (mid raw : String) :
    MailStoreState × MailStoreRecord :=
  match mailstore_find_one s mid with
  | some r =>
    let r' : MailStoreRecord := { r with ref_count := r.ref_count + 1 }
    (mailstore_update_one s mid r', r')
  | none =>
    let nr : MailStoreRecord := ⟨mid, raw, 1⟩
    (s ++ [nr], nr)

/-- Embedding of `MailStore.deref_mail_by_id` (mailstore.py lines 74-89):
fetch the record, decrement the fetched copy's `ref_count`, and call
`remove_one` only when the decremented count is `≤ 0`; in every other
case the store is left untouched (the decrement is never written back).
Returns the new state and the value the method returns. -/
def deref_mail_by_id (s : MailStoreState) (mid : String) :
    MailStoreState × Option MailStoreRecord :=
  match mailstore_find_one s mid with
  | some r =>
    let r' : MailStoreRecord := { r with ref_count := r.ref_count - 1 }
    if r'.ref_count ≤ 0 then (mailstore_remove_one s mid, some r')
    else (s, some r')
  | none => (s, none)

/-! ## Token creation and availability (src/mailboat/usrsys/tk.py 107-143,
src/mailboat/usrsys/storage.py 105-116) -/

/-- Embedding of `TokenRecord.new`.  Python truthiness drives each branch:
a falsy `appid` (`None` or `""`) becomes `"-1"`, a falsy `apprev` becomes
`""`, a falsy `scope` becomes `["act_as_user"]`.  The local `expir` is
assigned only under `if expiration_offest_seconds:`; the trailing
`expiration=(expir if expir else None)` therefore raises
`UnboundLocalError` whenever `expiration_offest_seconds` is `None` or
`0`.  `now` stands for `int(datetime.utcnow().timestamp())` and `tokenid`
for `str(uuid4())`. -/
def TokenRecord.new (profile_id : String) (appid apprev : Option String)
    (scope : List String) (expiration_offest_seconds : Option Int)
    (now : Int) (tokenid : String) : Except String TokenRecord :=
  let appid :=
    match appid with
    | none => ("-1")
    | some a => if a == ("") then ("-1") else a
  let apprev :=
    match apprev with
    | none => ("")
    | some a => a
  let scope := if scope.isEmpty then [("act_as_user")] else scope
  let expir : Option Int :=
    match expiration_offest_seconds with
    | some n => if n == 0 then none else some (now + n)
    | none => none
  match expir with
  | none => Except.error ("UnboundLocalError")
  | some e =>
    Except.ok
      { token := tokenid, profileid := profile_id, appid := appid, apprev := apprev
        scope := scope, expiration := if e == 0 then none else some e }

/-- Embedding of `TokenRecordStorage.create_token` (storage.py lines
105-116): call `TokenRecord.new` without `expiration_offest_seconds`,
then store the record.  Returns the grown token collection together with
the new record when `new` succeeds. -/
def create_token (store : List TokenRecord) (profileid : String)
    (appid apprev : Option String) (scope : List String)
    (now : Int) (tokenid : String) :
    Except String (List TokenRecord × TokenRecord) :=
  match TokenRecord.new profileid appid apprev scope none now tokenid with
  | Except.error e => Except.error e
  | Except.ok r => Except.ok (store ++ [r], r)

/-- Embedding of `TokenRecord.is_avaliable` (tk.py lines 141-143): the
method returns `self.expiration < datetime.utcnow().timestamp()`; when
`expiration` is `None` the comparison raises `TypeError`.  `now` stands
for the current UTC unix timestamp. -/
def TokenRecord.is_avaliable (t : TokenRecord) (now : Int) : Except String Bool :=
  match t.expiration with
  | none => Except.error ("TypeError")
  | some e => Except.ok (decide (e < now))

/-- Token availability as the spec words it: available iff `expiration`
is unset or strictly greater than the current UTC seconds. -/
def spec_token_available (expiration : Option Int) (now : Int) : Bool :=
  match expiration with
  | none => true
  | some e => decide (now < e)

/-- `Scope.__contains__` as the spec words it: some element of the set
covers the value under the dot-prefix rule. -/
def spec_scope_contains (scope : List String) (val : String) : Bool :=
  scope.any (fun s => spec_scope_match s val)

/-- Recognises the queue-removal effect of a delivery-worker iteration. -/
def is_remove_action : DeliveryAction → Bool
  | DeliveryAction.removeEntry _ => true
  | _ => false

/-! ## Theorems for the claims -/

/-- C1: `Scope.match(defined, requesting)` is claimed to hold iff the
dot-components of `defined` are a prefix of, and no longer than, those of
`requesting`, so that `Scope({"a"})` contains `"a.b"` but not `"b"`.  The
code tests the reversed inequality `len(defined) >= len(requesting)`, so
`match("a", "a.b")` is `false` while the spec rule (and the function's own
docstring `s1` cover `s1.s2`) gives `true`, `Scope({"a"})` does not
contain `"a.b"`, and instead `match("a.b", "a")` is `true`. -/
theorem C1_scope_match_contradicts_docstring :
    scope_match ("a") ("a.b") = false
      ∧ spec_scope_match ("a") ("a.b") = true
      ∧ scope_contains [("a")] ("a.b") = false
      ∧ spec_scope_contains [("a")] ("a.b") = true
      ∧ scope_contains [("a")] ("b") = false
      ∧ scope_match ("a.b") ("a") = true := by decide

/-- C2 counterexample: with `internal = false` and `X-Peer =
"localhost.evil.example"` — which is none of the loopback indicators
`127.0.0.1`, `::1`, `localhost` — `handle_message` still enqueues an
envelope for `ext@example.org`, whose hostname `example.org` is not in
`mydomains = ["foo.bar"]`, because the code tests  `X-Peer.startswith`
rather than equality. -/
theorem C2_relay_counterexample :
    handle_message [("foo.bar")]
        ⟨some ("mid1"), some ("localhost.evil.example"),
          [⟨("email"), ("example.org"), ("ext@example.org")⟩], [], []⟩ false
      = [⟨("email"), ("example.org"), ("ext@example.org")⟩]
      ∧ List.contains [("foo.bar")] ("example.org") = false
      ∧ (("localhost.evil.example") == ("127.0.0.1")) = false
      ∧ (("localhost.evil.example") == ("::1")) = false
      ∧ (("localhost.evil.example") == ("localhost")) = false := by decide

/-- C2 (amended): for every message handled with `internal = false` whose
`X-Peer` header does not start with `127.0.0.1`, `::1` or `localhost`,
no envelope is enqueued for a recipient whose hostname is outside
`mydomains`: every enqueued envelope recipient is local. -/
theorem C2_no_open_relay (mydomains : List String) (msg : InMessage)
    (hx : ∀ p, msg.xPeer = some p →
      (str_startswith p ("127.0.0.1") || str_startswith p ("::1")
        || str_startswith p ("localhost")) = false) :
    (handle_message mydomains msg false).all
      (fun a => mydomains.contains a.hostname) = true := by
  have hrelay : relay_allowed msg false = false := by
    unfold relay_allowed
    cases hp : msg.xPeer with
    | none => rfl
    | some p => simp [hx p hp]
  obtain ⟨mid, xp, t, c, b⟩ := msg
  cases mid with
  | none => rfl
  | some m =>
    rw [List.all_eq_true]
    intro a ha
    have h2 := (List.mem_filter.mp ha).2
    rw [hrelay] at h2
    simp only [Bool.or_false, Bool.and_eq_true] at h2
    exact h2.2

/-- C2 witness: a submission from `X-Peer = 10.0.0.5` addressed to
`ext@example.org` with `mydomains = ["foo.bar"]` enqueues no envelope
with a non-local hostname. -/
theorem C2_no_open_relay_witness :
    (handle_message [("foo.bar")]
        ⟨some ("mid1"), some ("10.0.0.5"),
          [⟨("email"), ("example.org"), ("ext@example.org")⟩], [], []⟩ false).all
      (fun a => List.contains [("foo.bar")] a.hostname) = true :=
  C2_no_open_relay [("foo.bar")]
    ⟨some ("mid1"), some ("10.0.0.5"),
      [⟨("email"), ("example.org"), ("ext@example.org")⟩], [], []⟩
    (by intro p hp; injection hp with h; subst h; decide)

/-- C3: the record store's `find` is claimed to yield exactly the records
matching every key of the query.  `doc_match` instead returns `True` as
soon as one query key matches: the document `{a: 1, b: 2}` differs from
the query `{a: 1, b: 3}` on key `b`, yet `doc_match` accepts it and
`find` yields it. -/
theorem C3_doc_match_is_disjunctive :
    doc_match [(("a"), Value.vint 1), (("b"), Value.vint 2)]
        [(("a"), Value.vint 1), (("b"), Value.vint 3)] = true
      ∧ spec_doc_match [(("a"), Value.vint 1), (("b"), Value.vint 2)]
        [(("a"), Value.vint 1), (("b"), Value.vint 3)] = false
      ∧ storage_find [[(("a"), Value.vint 1), (("b"), Value.vint 2)]]
        [(("a"), Value.vint 1), (("b"), Value.vint 3)]
        = [[(("a"), Value.vint 1), (("b"), Value.vint 2)]]
      ∧ storage_find_one [[(("a"), Value.vint 1), (("b"), Value.vint 2)]]
        [(("a"), Value.vint 1), (("b"), Value.vint 3)]
        = some [(("a"), Value.vint 1), (("b"), Value.vint 2)] := by decide

/-- C4: `TokenRecord.is_avaliable` is claimed true iff `expiration` is
unset or strictly in the future.  The code compares in the wrong
direction: a token expiring at 1000 checked at time 500 is reported
unavailable (`ok false`) although the spec rule says available, and an
unset expiration raises `TypeError` instead of returning true. -/
theorem C4_is_avaliable_reversed :
    TokenRecord.is_avaliable
        ⟨("t1"), ("p1"), ("-1"), (""), [("act_as_user")], some 1000⟩ 500
      = Except.ok false
      ∧ spec_token_available (some 1000) 500 = true
      ∧ TokenRecord.is_avaliable
        ⟨("t1"), ("p1"), ("-1"), (""), [("act_as_user")], none⟩ 500
      = Except.error ("TypeError")
      ∧ spec_token_available none 500 = true := ⟨rfl, rfl, rfl, rfl⟩

/-- C5: storing the same mail twice persists `ref_count = 2`, and the
claim says each `deref_mail_by_id` then decrements the persisted count,
deleting the record on the second deref.  In the code the decrement is
applied only to the fetched copy and is never written back when it stays
positive, so after one — or any number of — derefs the stored record
still has `ref_count = 2` and is never deleted. -/
theorem C5_deref_decrement_not_persisted :
    (store_mail (store_mail [] ("m1") ("raw1")).1 ("m1") ("raw1")).1
      = [⟨("m1"), ("raw1"), 2⟩]
      ∧ deref_mail_by_id [⟨("m1"), ("raw1"), 2⟩] ("m1")
        = ([⟨("m1"), ("raw1"), 2⟩], some ⟨("m1"), ("raw1"), 1⟩)
      ∧ deref_mail_by_id
          (deref_mail_by_id [⟨("m1"), ("raw1"), 2⟩] ("m1")).1 ("m1")
        = ([⟨("m1"), ("raw1"), 2⟩], some ⟨("m1"), ("raw1"), 1⟩)
      ∧ mailstore_find_one [⟨("m1"), ("raw1"), 2⟩] ("m1")
        = some ⟨("m1"), ("raw1"), 2⟩ := by decide

/-- C6: the claim says the delivery worker calls `queue.remove(id)` once
per dequeued envelope after the delivery attempt.  One iteration of
`_cothread_deliveryman` performs no removal at all, for any domains,
envelope and queue index: the dequeued entry is never removed from the
queue. -/
theorem C6_worker_never_removes (mydomains : List String) (msg : QueuedMessage)
    (idx : Nat) :
    (cothread_deliveryman_step mydomains msg idx).countP is_remove_action = 0 := by
  obtain ⟨dt, bc⟩ := msg
  cases dt with
  | none => rfl
  | some a =>
    cases bc <;> simp only [cothread_deliveryman_step] <;> split <;> rfl

/-- C7: `Scope.is_superset_of(Q)` is claimed true iff every scope in `Q`
is covered by some scope in the set.  The code instead demands that every
scope in the set match every scope in `Q` (and vacuously succeeds on the
empty set): `Scope({"a", "b"})` is not reported a superset of `{"a"}`
although `"a"` covers `"a"`, while the empty scope is reported a superset
of `{"x"}`. -/
theorem C7_superset_quantifies_wrong :
    scope_is_superset_of [("a"), ("b")] [("a")] = false
      ∧ spec_scope_is_superset_of [("a"), ("b")] [("a")] = true
      ∧ scope_is_superset_of [] [("x")] = true
      ∧ spec_scope_is_superset_of [] [("x")] = false := by decide

/-- C8 counterexample: on `MemoryEmailQueue`, after `put`, `get` (which
returns id 0) and a first `remove(0)`, a second `remove(0)` is not safe:
the `assert id in self.container` fails with `AssertionError`, refuting
idempotency of `remove` for every queue implementation. -/
theorem C8_memory_remove_not_idempotent :
    mem_put memEmpty ("m") = ⟨[(0, ("m"))], 0, 1⟩
      ∧ mem_get ⟨[(0, ("m"))], 0, 1⟩ = some (("m"), 0, ⟨[(0, ("m"))], 1, 1⟩)
      ∧ mem_remove ⟨[(0, ("m"))], 1, 1⟩ 0 = Except.ok ⟨[], 1, 1⟩
      ∧ mem_remove ⟨[], 1, 1⟩ 0 = Except.error ("AssertionError") :=
  ⟨rfl, rfl, rfl, rfl⟩

/-- C8 (amended): `UnQLiteEmailMessageQueue.remove` is idempotent — a
second `remove(id)` leaves the queue exactly as the first left it — while
`MemoryEmailQueue.remove` asserts that the id is still present and fails
with `AssertionError` whenever it is not, as after a first `remove` of
the same id. -/
theorem C8_remove_idempotency :
    (∀ (s : UnqQueue) (i : Nat), unq_remove (unq_remove s i) i = unq_remove s i)
      ∧ (∀ (s : MemQueue) (i : Nat), (s.container.lookup i).isSome = false →
          mem_remove s i = Except.error ("AssertionError")) := by
  constructor
  · intro s i
    simp [unq_remove, List.filter_filter]
  · intro s i h
    simp [mem_remove, h]

/-- C8 witness: deleting id 0 twice from a concrete unqlite-backed queue
equals deleting it once, and a concrete memory queue that no longer holds
id 0 raises `AssertionError` on `remove(0)`. -/
theorem C8_remove_idempotency_witness :
    unq_remove (unq_remove ⟨[(0, ("m"))], [], 1⟩ 0) 0
      = unq_remove ⟨[(0, ("m"))], [], 1⟩ 0
      ∧ mem_remove ⟨[], 1, 1⟩ 0 = Except.error ("AssertionError") :=
  ⟨C8_remove_idempotency.1 ⟨[(0, ("m"))], [], 1⟩ 0,
   C8_remove_idempotency.2 ⟨[], 1, 1⟩ 0 rfl⟩

/-- C9: for every record of each dataclass record type used by the system
(`UserRecord`, `ProfileRecord`, `MailBoxRecord`, `MailRecord`,
`MailStoreRecord`, `TokenRecord`), the default adapter round-trips:
`dict2record(record2dict(r)) = r`, and the same holds when an
engine-internal `__id` key is present, since `dict2record` strips it
before reconstruction. -/
theorem C9_adapter_roundtrip :
    (∀ r : UserRecord, UserRecord.dict2record (UserRecord.record2dict r) = some r)
      ∧ (∀ r : ProfileRecord,
          ProfileRecord.dict2record (ProfileRecord.record2dict r) = some r)
      ∧ (∀ r : MailBoxRecord,
          MailBoxRecord.dict2record (MailBoxRecord.record2dict r) = some r)
      ∧ (∀ r : MailRecord, MailRecord.dict2record (MailRecord.record2dict r) = some r)
      ∧ (∀ r : MailStoreRecord,
          MailStoreRecord.dict2record (MailStoreRecord.record2dict r) = some r)
      ∧ (∀ r : TokenRecord, TokenRecord.dict2record (TokenRecord.record2dict r) = some r)
      ∧ (∀ (r : UserRecord) (v : Value),
          UserRecord.dict2record ((("__id"), v) :: UserRecord.record2dict r) = some r)
      ∧ (∀ (r : ProfileRecord) (v : Value),
          ProfileRecord.dict2record ((("__id"), v) :: ProfileRecord.record2dict r)
            = some r)
      ∧ (∀ (r : MailBoxRecord) (v : Value),
          MailBoxRecord.dict2record ((("__id"), v) :: MailBoxRecord.record2dict r)
            = some r)
      ∧ (∀ (r : MailRecord) (v : Value),
          MailRecord.dict2record ((("__id"), v) :: MailRecord.record2dict r) = some r)
      ∧ (∀ (r : MailStoreRecord) (v : Value),
          MailStoreRecord.dict2record ((("__id"), v) :: MailStoreRecord.record2dict r)
            = some r)
      ∧ (∀ (r : TokenRecord) (v : Value),
          TokenRecord.dict2record ((("__id"), v) :: TokenRecord.record2dict r)
            = some r) := by
  refine ⟨?_, ?_, ?_, ?_, ?_, ?_, ?_, ?_, ?_, ?_, ?_, ?_⟩
  · intro r
    obtain ⟨a, b, c, d, e, f⟩ := r
    cases f <;> rfl
  · intro r
    obtain ⟨a, b, c, d, e⟩ := r
    cases b <;> cases c <;> cases d <;> cases e <;> rfl
  · intro r
    obtain ⟨a, b, c, d⟩ := r
    rfl
  · intro r
    obtain ⟨a, b⟩ := r
    rfl
  · intro r
    obtain ⟨a, b, c⟩ := r
    rfl
  · intro r
    obtain ⟨a, b, c, d, e, f⟩ := r
    cases f <;> rfl
  · intro r v
    obtain ⟨a, b, c, d, e, f⟩ := r
    cases f <;> rfl
  · intro r v
    obtain ⟨a, b, c, d, e⟩ := r
    cases b <;> cases c <;> cases d <;> cases e <;> rfl
  · intro r v
    obtain ⟨a, b, c, d⟩ := r
    rfl
  · intro r v
    obtain ⟨a, b⟩ := r
    rfl
  · intro r v
    obtain ⟨a, b, c⟩ := r
    rfl
  · intro r v
    obtain ⟨a, b, c, d, e, f⟩ := r
    cases f <;> rfl

/-- C10: every call to `TokenRecord.new` whose
`expiration_offest_seconds` is absent (`None`) or falsy (`0`) raises
`UnboundLocalError` instead of returning a record, and
`TokenRecordStorage.create_token` — which always calls `new` without an
expiration offset — therefore always raises, creating and storing no
token on this path. -/
theorem C10_create_token_unbound_local :
    (∀ (pid : String) (appid apprev : Option String) (scope : List String)
        (off : Option Int) (now : Int) (tid : String),
        (off = none ∨ off = some 0) →
        TokenRecord.new pid appid apprev scope off now tid
          = Except.error ("UnboundLocalError"))
      ∧ (∀ (store : List TokenRecord) (pid : String) (appid apprev : Option String)
          (scope : List String) (now : Int) (tid : String),
          create_token store pid appid apprev scope now tid
            = Except.error ("UnboundLocalError")) := by
  constructor
  · rintro pid a ap sc off now tid (rfl | rfl) <;> rfl
  · intro store pid a ap sc now tid
    rfl

/-- C10 witness: the concrete mint that `create_token` performs for
profile `p1` (no appid, no apprev, empty scope) raises
`UnboundLocalError` both directly in `TokenRecord.new` and through
`create_token`, so the token store stays empty. -/
theorem C10_create_token_unbound_local_witness :
    ((none : Option Int) = none ∨ (none : Option Int) = some 0)
      ∧ TokenRecord.new ("p1") none none [] none 0 ("t1")
        = Except.error ("UnboundLocalError")
      ∧ create_token [] ("p1") none none [] 0 ("t1")
        = Except.error ("UnboundLocalError") :=
  ⟨Or.inl rfl,
   C10_create_token_unbound_local.1 ("p1") none none [] none 0 ("t1") (Or.inl rfl),
   C10_create_token_unbound_local.2 [] ("p1") none none [] 0 ("t1")⟩

end Mailboat
